import Mathlib

/-!
Shallow embedding of the actflow-server repository (Rust) core:

* `src/server/server.rs` — the gRPC facade (`run_workflow`, `stop_workflow`)
  and the event/log bridge (`handle_workflow_events`, `handle_workflow_logs`)
  between the actflow engine callbacks and the bounded tokio mpsc channel
  backing the response stream.
* `src/common/shutdown.rs` — the `Shutdown` coordinator built from an
  `AtomicBool` and a tokio `Notify`.

Engine-side types (`actflow::Event`, `actflow::GraphEvent`, `actflow::Log`,
payloads) are embedded with their observable fields; opaque payloads the
server never inspects are carried as strings.
-/

namespace Actflow

/-- Payload of `actflow::WorkflowEvent::Failed` — the server reads `err.error`. -/
structure FailedInfo where
  error : String
deriving DecidableEq, Repr

/-- Payload of `actflow::WorkflowEvent::Aborted` — the server reads `aborted.reason`. -/
structure AbortedInfo where
  reason : String
deriving DecidableEq, Repr

/-- Payload of `actflow::WorkflowEvent::Paused` — the server reads `paused.reason`. -/
structure PausedInfo where
  reason : String
deriving DecidableEq, Repr

/-- Engine `actflow::WorkflowEvent` — the five workflow-level engine event variants.
Payloads the server ignores (the `Start(_)` message) are kept as opaque strings. -/
inductive WorkflowEvent where
  | start (payload : String)
  | succeeded
  | failed (err : FailedInfo)
  | aborted (a : AbortedInfo)
  | paused (p : PausedInfo)
deriving DecidableEq, Repr

/-- Engine `actflow::NodeEvent` — the seven node-level engine event variants.
Payloads the server ignores are opaque strings; `error` carries the
`err.to_string()` text the server relays. -/
inductive NodeEvent where
  | running (payload : String)
  | stopped (payload : String)
  | paused (payload : String)
  | skipped
  | succeeded (payload : String)
  | error (errText : String)
  | retry
deriving DecidableEq, Repr

/-- Engine `actflow::GraphEvent` — tagged union of workflow-level and node-level events. -/
inductive GraphEvent where
  | workflow (e : WorkflowEvent)
  | node (e : NodeEvent)
deriving DecidableEq, Repr

/-- Engine `actflow::Event<actflow::Message>` as consumed by the server:
the owning process id `pid`, the node id `nid`, and the tagged event. -/
structure Event where
  pid : String
  nid : String
  event : GraphEvent
deriving DecidableEq, Repr

/-- Engine `actflow::Log` as consumed by the server. -/
structure Log where
  pid : String
  nid : String
  content : String
  timestamp : Int
deriving DecidableEq, Repr

end Actflow

namespace Proto

/-- The wire `WorkflowEvent` oneof: the thirteen protocol-visible variants
built by `handle_workflow_events` and `handle_workflow_logs`. -/
inductive WireEvent where
  | workflowStart (pid : String)
  | workflowSuccess (pid : String)
  | workflowFailure (pid errorMessage : String)
  | workflowAbort (pid reason : String)
  | workflowPause (pid reason : String)
  | nodeRunning (pid nid : String)
  | nodeStopped (pid nid : String)
  | nodePaused (pid nid reason : String)
  | nodeSkipped (pid nid : String)
  | nodeSuccess (pid nid : String)
  | nodeError (pid nid errorMessage : String)
  | nodeRetry (pid nid : String)
  | nodeLog (pid nid logMessage : String) (timestamp : Int)
deriving DecidableEq, Repr

/-- The `process_id` field present on every wire variant. -/
def WireEvent.pid : WireEvent → String
  | .workflowStart p => p
  | .workflowSuccess p => p
  | .workflowFailure p _ => p
  | .workflowAbort p _ => p
  | .workflowPause p _ => p
  | .nodeRunning p _ => p
  | .nodeStopped p _ => p
  | .nodePaused p _ _ => p
  | .nodeSkipped p _ => p
  | .nodeSuccess p _ => p
  | .nodeError p _ _ => p
  | .nodeRetry p _ => p
  | .nodeLog p _ _ _ => p

/-- The `node_id` field, present on the node-level and log wire variants only. -/
def WireEvent.nid : WireEvent → Option String
  | .workflowStart _ => none
  | .workflowSuccess _ => none
  | .workflowFailure _ _ => none
  | .workflowAbort _ _ => none
  | .workflowPause _ _ => none
  | .nodeRunning _ n => some n
  | .nodeStopped _ n => some n
  | .nodePaused _ n _ => some n
  | .nodeSkipped _ n => some n
  | .nodeSuccess _ n => some n
  | .nodeError _ n _ => some n
  | .nodeRetry _ n => some n
  | .nodeLog _ n _ _ => some n

end Proto

namespace Server

/-- Protocol status `tonic::Status` as produced by `run_workflow`: only the
`invalid_argument` and `internal` constructors are used by the server. -/
inductive Status where
  | invalidArgument (msg : String)
  | internal (msg : String)
deriving DecidableEq, Repr

/-- The translation performed by the `match` in `handle_workflow_events`
(src/server/server.rs lines 94-179): each engine event variant is mapped
to exactly one wire variant, tagged with `event.pid` (and `event.nid`
for node-level events). The node-level `Paused` arm fills `reason` with
`String::new()`; the workflow-level `Paused` arm relays `paused.reason`. -/
def translateEvent (event : Actflow.Event) : Proto.WireEvent :=
  match event.event with
  | .workflow (.start _) => .workflowStart event.pid
  | .workflow .succeeded => .workflowSuccess event.pid
  | .workflow (.failed err) => .workflowFailure event.pid err.error
  | .workflow (.aborted a) => .workflowAbort event.pid a.reason
  | .workflow (.paused p) => .workflowPause event.pid p.reason
  | .node (.running _) => .nodeRunning event.pid event.nid
  | .node (.stopped _) => .nodeStopped event.pid event.nid
  | .node (.paused _) => .nodePaused event.pid event.nid ""
  | .node .skipped => .nodeSkipped event.pid event.nid
  | .node (.succeeded _) => .nodeSuccess event.pid event.nid
  | .node (.error e) => .nodeError event.pid event.nid e
  | .node .retry => .nodeRetry event.pid event.nid

/-- The translation performed by `handle_workflow_logs`
(src/server/server.rs lines 190-197): every log record maps to one
`NodeLog` wire event carrying `log.pid`, `log.nid`, `log.content`,
`log.timestamp`. -/
def translateLog (log : Actflow.Log) : Proto.WireEvent :=
  .nodeLog log.pid log.nid log.content log.timestamp

/-- True exactly on the wire variants the spec classifies as terminal:
WorkflowSuccess, WorkflowFailure, WorkflowAbort. -/
def isTerminal : Proto.WireEvent → Bool
  | .workflowSuccess _ => true
  | .workflowFailure _ _ => true
  | .workflowAbort _ _ => true
  | _ => false

/-- An item of the outbound queue: the handlers send
`Ok(workflow_event) : Result<WorkflowEvent, Status>`. -/
abbrev StreamItem := Except Status Proto.WireEvent

instance {ε α : Type} [DecidableEq ε] [DecidableEq α] : DecidableEq (Except ε α) := fun a b =>
  match a, b with
  | .ok x, .ok y => decidable_of_iff (x = y) (by simp)
  | .error x, .error y => decidable_of_iff (x = y) (by simp)
  | .ok _, .error _ => isFalse (by simp)
  | .error _, .ok _ => isFalse (by simp)

/-- State of the bounded `tokio::sync::mpsc::channel` created by
`run_workflow` (src/server/server.rs line 45). `closed` is true once the
receiving end has been dropped; `buffer` holds the enqueued, not yet
drained items in send order. -/
structure Channel where
  capacity : Nat
  buffer : List StreamItem
  closed : Bool
deriving DecidableEq, Repr

/-- Outcome of one `tx.send(item).await` on a bounded mpsc sender:
`sent` — capacity was available and the item was enqueued immediately;
`blocked` — the channel is open but full, so the `await` suspends the
sending future until the consumer frees capacity (the item is not
dropped); `errClosed` — the receiver is gone, the send returns
`Err(SendError(item))` and the item is dropped. -/
inductive SendOutcome where
  | sent
  | blocked
  | errClosed
deriving DecidableEq, Repr

/-- One step of `tx.send(item).await` against the channel state.
A `blocked` send leaves the buffer unchanged: the send is pending,
suspending its caller, and completes only after the consumer drains. -/
def mpscSend (ch : Channel) (item : StreamItem) : Channel × SendOutcome :=
  if ch.closed then (ch, .errClosed)
  else if ch.capacity ≤ ch.buffer.length then (ch, .blocked)
  else ({ ch with buffer := ch.buffer ++ [item] }, .sent)

/-- Result of one handler invocation: the channel state after the send,
the send outcome, and the `eprintln!` diagnostic, if any was emitted. -/
structure HandlerResult where
  channel : Channel
  outcome : SendOutcome
  diagnostic : Option String
deriving DecidableEq, Repr

/-- Handler `handle_workflow_events` (src/server/server.rs lines 90-184):
translate the engine event and `tx.send(Ok(event)).await`; if the send
returns `Err`, print a diagnostic. No terminal-state detection, no close
of the channel, and no error is returned to the engine callback. -/
def handle_workflow_events (ch : Channel) (event : Actflow.Event) : HandlerResult :=
  let sent := mpscSend ch (.ok (translateEvent event))
  { channel := sent.1
    outcome := sent.2
    diagnostic :=
      if sent.2 = .errClosed then some "Failed to send workflow event" else none }

/-- Handler `handle_workflow_logs` (src/server/server.rs lines 186-201):
translate the log and `tx.send(Ok(log_event)).await`; if the send
returns `Err`, print a diagnostic. -/
def handle_workflow_logs (ch : Channel) (log : Actflow.Log) : HandlerResult :=
  let sent := mpscSend ch (.ok (translateLog log))
  { channel := sent.1
    outcome := sent.2
    diagnostic :=
      if sent.2 = .errClosed then some "Failed to send workflow log event" else none }

/-- One engine-callback delivery for a process: either an event-callback
invocation or a log-callback invocation. -/
inductive Delivery where
  | event (e : Actflow.Event)
  | log (l : Actflow.Log)
deriving DecidableEq, Repr

/-- Sequential processing of a delivery sequence through the registered
handlers, threading the channel state. -/
def runDeliveries (ch : Channel) : List Delivery → Channel
  | [] => ch
  | .event e :: rest => runDeliveries (handle_workflow_events ch e).channel rest
  | .log l :: rest => runDeliveries (handle_workflow_logs ch l).channel rest

/-- Payload of `RunWorkflowRequest.workflow_model` (a `prost_types::Struct`);
opaque to the facade, which only hands it to deserialization. -/
structure Payload where
  raw : String
deriving DecidableEq, Repr

/-- Model type `actflow::WorkflowModel`, opaque to the facade. -/
structure WorkflowModel where
  raw : String
deriving DecidableEq, Repr

/-- The process handle returned by `build_workflow_process`; the facade
uses only `porc.id()`. -/
structure Process where
  id : String
deriving DecidableEq, Repr

/-- Request type `RunWorkflowRequest`: the optional workflow-model payload. -/
structure RunWorkflowRequest where
  workflow_model : Option Payload
deriving DecidableEq, Repr

/-- Request type `StopWorkflowRequest`: the process id string. -/
structure StopWorkflowRequest where
  process_id : String
deriving DecidableEq, Repr

/-- Response type `StopWorkflowResponse`. -/
structure StopWorkflowResponse where
  success : Bool
  error_message : String
deriving DecidableEq, Repr

/-- An engine interaction performed by the facade, recorded in order. -/
inductive EngineOp where
  | buildWorkflowProcess (model : WorkflowModel)
  | registerEventCallback (pid : String)
  | registerLogCallback (pid : String)
  | startProcess (pid : String)
  | stop (pid : String)
deriving DecidableEq, Repr

/-- Successful outcome of `run_workflow`: the response stream is the
receiving end of a fresh bounded channel; we record its capacity and the
process id the two callbacks were registered for. -/
structure RunWorkflowOk where
  channelCapacity : Nat
  pid : String
deriving DecidableEq, Repr

/-- Facade operation `run_workflow` (src/server/server.rs lines 29-68), parameterized over
the external collaborators: `parse` is `serde_json::from_value` applied to
the converted payload, `build` is `engine.build_workflow_process`. Returns
the RPC result together with the ordered trace of engine interactions:
1. missing payload → invalid-argument, no engine interaction;
2. failed deserialization → invalid-argument, no engine interaction;
3. failed build → internal status, after the build attempt;
4. otherwise create `mpsc::channel(100)`, register the event and log
   callbacks for the new pid, start the process, return the stream. -/
def run_workflow (parse : Payload → Except String WorkflowModel)
    (build : WorkflowModel → Except String Process)
    (request : RunWorkflowRequest) :
    Except Status RunWorkflowOk × List EngineOp :=
  match request.workflow_model with
  | none => (.error (.invalidArgument "Missing workflow model"), [])
  | some payload =>
    match parse payload with
    | .error e => (.error (.invalidArgument ("Invalid workflow model: " ++ e)), [])
    | .ok model =>
      match build model with
      | .error e =>
        (.error (.internal ("Failed to build workflow process: " ++ e)),
         [.buildWorkflowProcess model])
      | .ok porc =>
        (.ok { channelCapacity := 100, pid := porc.id },
         [.buildWorkflowProcess model, .registerEventCallback porc.id,
          .registerLogCallback porc.id, .startProcess porc.id])

/-- Facade operation `stop_workflow` (src/server/server.rs lines 70-85), parameterized over
`stop = engine.stop`. The process id is passed to the engine unexamined;
both engine outcomes are mapped to a normal `Ok(Response(...))` value. -/
def stop_workflow (stop : String → Except String Unit)
    (request : StopWorkflowRequest) :
    Except Status StopWorkflowResponse × List EngineOp :=
  let pid := request.process_id
  match stop pid with
  | .ok _ => (.ok { success := true, error_message := "" }, [.stop pid])
  | .error err => (.ok { success := false, error_message := err }, [.stop pid])

end Server

namespace Shutdown

/-- State of the `Shutdown` coordinator (src/common/shutdown.rs): the
`AtomicBool` flag, and the tokio `Notify` represented by its
`notify_waiters` generation counter `gen` — each `notify_waiters()` call
increments it, and a `Notified` future created at generation `g`
completes once the counter exceeds `g`. -/
structure State where
  flag : Bool
  gen : Nat
deriving DecidableEq, Repr

/-- Constructor `Shutdown::new()`: flag false, no notification has occurred. -/
def new : State := { flag := false, gen := 0 }

/-- Signal `Shutdown::shutdown()`: `swap(true, Relaxed)` on the flag,
then `notify_waiters()`. -/
def shutdown (s : State) : State :=
  { flag := true, gen := s.gen + 1 }

/-- Reset `Shutdown::reset()`: `store(false, Relaxed)`; the `Notify` is untouched. -/
def reset (s : State) : State :=
  { s with flag := false }

/-- Query `Shutdown::is_terminated()`: `load(Relaxed)` of the flag. -/
def is_terminated (s : State) : Bool := s.flag

/-- Control point of one `wait()` future (src/common/shutdown.rs lines
45-57): `start` — before the initial fast check; `checked` — the initial
check read false, about to create `inner.1.notified()`; `subscribed g` —
the `Notified` future exists with generation snapshot `g`, about to
re-check the flag; `waiting g` — suspended in `notify.await`; `done` —
the future has resolved. -/
inductive WaitPhase where
  | start
  | checked
  | subscribed (g : Nat)
  | waiting (g : Nat)
  | done
deriving DecidableEq, Repr

/-- One step of the `wait()` future against the shared state: the initial
check returns immediately when the flag is true; otherwise `notified()`
snapshots the current generation; the second check returns immediately
when the flag became true meanwhile; the suspended `notify.await`
resolves exactly when a `notify_waiters()` occurred after the snapshot. -/
def waitStep (s : State) : WaitPhase → WaitPhase
  | .start => if s.flag then .done else .checked
  | .checked => .subscribed s.gen
  | .subscribed g => if s.flag then .done else .waiting g
  | .waiting g => if g < s.gen then .done else .waiting g
  | .done => .done

/-- A step of an interleaved execution: either some task calls
`shutdown()` (the signal), or the `wait()` future under scrutiny is
polled and advances one step. -/
inductive Step where
  | signal
  | waiter
deriving DecidableEq, Repr

/-- Run an interleaving of signal calls and waiter steps from a shared
state and a waiter control point. -/
def runExec : State × WaitPhase → List Step → State × WaitPhase
  | sp, [] => sp
  | (s, p), .signal :: rest => runExec (shutdown s, p) rest
  | (s, p), .waiter :: rest => runExec (s, waitStep s p) rest

/-- Apply `shutdown()` `n` times. -/
def signalN : Nat → State → State
  | 0, s => s
  | n + 1, s => signalN n (shutdown s)

end Shutdown

/-!
Concrete fixtures used by witnesses and counterexamples.
-/

/-- A deserializer that accepts every payload. -/
def parseOk : Server.Payload → Except String Server.WorkflowModel :=
  fun p => .ok ⟨p.raw⟩

/-- A deserializer that rejects every payload. -/
def parseBad : Server.Payload → Except String Server.WorkflowModel :=
  fun _ => .error "missing field nodes"

/-- An engine build that always succeeds with process id pid-1. -/
def buildOk : Server.WorkflowModel → Except String Server.Process :=
  fun _ => .ok ⟨"pid-1"⟩

/-- An engine stop that always succeeds. -/
def stopAlwaysOk : String → Except String Unit :=
  fun _ => .ok ()

/-- An engine stop that always fails with an engine-provided message. -/
def stopAlwaysErr : String → Except String Unit :=
  fun _ => .error "process not found"

/-- A fresh outbound channel as created by `run_workflow`. -/
def initialChannel : Server.Channel :=
  { capacity := 100, buffer := [], closed := false }

/-- A full but open channel of capacity 1. -/
def fullChannel : Server.Channel :=
  { capacity := 1, buffer := [.ok (.workflowStart "p")], closed := false }

/-- A channel whose receiving end has been dropped. -/
def closedChannel : Server.Channel :=
  { capacity := 100, buffer := [], closed := true }

/-- A node-level Running engine event for process p, node n1. -/
def runningEvent : Actflow.Event :=
  { pid := "p", nid := "n1", event := .node (.running "") }

/-- A log record for process p, node n1. -/
def someLog : Actflow.Log :=
  { pid := "p", nid := "n1", content := "hello", timestamp := 7 }

/-!
Invariant machinery for the `Shutdown.wait` liveness argument.
-/

/-- Relation between a wait future's control point and the shared state:
a generation snapshot is never ahead of the Notify counter, and once the
flag is set any suspended waiter's snapshot is strictly behind (because
the signal that set the flag also bumped the counter). -/
def WaitInv (s : Shutdown.State) : Shutdown.WaitPhase → Prop
  | .start => True
  | .checked => True
  | .subscribed g => g ≤ s.gen
  | .waiting g => g ≤ s.gen ∧ (s.flag = true → g < s.gen)
  | .done => True

theorem waitInv_waitStep (s : Shutdown.State) (p : Shutdown.WaitPhase)
    (h : WaitInv s p) : WaitInv s (Shutdown.waitStep s p) := by
  cases p with
  | start =>
    by_cases hf : s.flag <;> simp [Shutdown.waitStep, hf, WaitInv]
  | checked =>
    simp [Shutdown.waitStep, WaitInv]
  | subscribed g =>
    have hg : g ≤ s.gen := h
    by_cases hf : s.flag <;> simp [Shutdown.waitStep, hf, WaitInv, hg]
  | waiting g =>
    by_cases hlt : g < s.gen
    · simp [Shutdown.waitStep, hlt, WaitInv]
    · have hstep : Shutdown.waitStep s (.waiting g) = .waiting g := by
        simp [Shutdown.waitStep, hlt]
      rw [hstep]
      exact h
  | done =>
    simp [Shutdown.waitStep, WaitInv]

theorem waitInv_shutdown (s : Shutdown.State) (p : Shutdown.WaitPhase)
    (h : WaitInv s p) : WaitInv (Shutdown.shutdown s) p := by
  cases p with
  | start => trivial
  | checked => trivial
  | subscribed g =>
    have hg : g ≤ s.gen := h
    show g ≤ s.gen + 1
    omega
  | waiting g =>
    have hg : g ≤ s.gen ∧ (s.flag = true → g < s.gen) := h
    obtain ⟨h1, -⟩ := hg
    show g ≤ s.gen + 1 ∧ ((Shutdown.shutdown s).flag = true → g < s.gen + 1)
    exact ⟨by omega, fun _ => by omega⟩
  | done => trivial

theorem waitInv_runExec (steps : List Shutdown.Step) :
    ∀ (s : Shutdown.State) (p : Shutdown.WaitPhase), WaitInv s p →
      WaitInv (Shutdown.runExec (s, p) steps).1 (Shutdown.runExec (s, p) steps).2 := by
  induction steps with
  | nil =>
    intro s p h
    simpa [Shutdown.runExec] using h
  | cons st rest ih =>
    intro s p h
    cases st with
    | signal =>
      simpa [Shutdown.runExec] using ih (Shutdown.shutdown s) p (waitInv_shutdown s p h)
    | waiter =>
      simpa [Shutdown.runExec] using ih s (Shutdown.waitStep s p) (waitInv_waitStep s p h)

theorem wait_resolves_in_two (s : Shutdown.State) (p : Shutdown.WaitPhase)
    (hinv : WaitInv s p) (hflag : s.flag = true) :
    (Shutdown.runExec (s, p) [.waiter, .waiter]).2 = .done := by
  cases p with
  | start => simp [Shutdown.runExec, Shutdown.waitStep, hflag]
  | checked => simp [Shutdown.runExec, Shutdown.waitStep, hflag]
  | subscribed g => simp [Shutdown.runExec, Shutdown.waitStep, hflag]
  | waiting g =>
    have hg : g ≤ s.gen ∧ (s.flag = true → g < s.gen) := hinv
    have hlt : g < s.gen := hg.2 hflag
    simp [Shutdown.runExec, Shutdown.waitStep, hlt]
  | done => simp [Shutdown.runExec, Shutdown.waitStep]

/-!
Arithmetic of repeated signals.
-/

theorem signalN_gen (n : Nat) : ∀ s : Shutdown.State,
    (Shutdown.signalN n s).gen = s.gen + n := by
  induction n with
  | zero => intro s; simp [Shutdown.signalN]
  | succ k ih =>
    intro s
    have h1 : Shutdown.signalN (k + 1) s = Shutdown.signalN k (Shutdown.shutdown s) := rfl
    rw [h1, ih (Shutdown.shutdown s)]
    show s.gen + 1 + k = s.gen + (k + 1)
    omega

theorem signalN_succ_flag : ∀ (n : Nat) (s : Shutdown.State),
    (Shutdown.signalN (n + 1) s).flag = true := by
  intro n
  induction n with
  | zero => intro s; rfl
  | succ k ih => intro s; exact ih (Shutdown.shutdown s)

/-- C8: the event-to-wire translation and the log-to-wire translation are
total functions — each of the twelve engine event variants and every log
record maps to exactly one wire variant carrying the owning process id
(and node id for node-level events and logs) — and equal inputs always
translate to equal outputs. -/
theorem translation_total_and_deterministic :
    (∀ e : Actflow.Event, (Server.translateEvent e).pid = e.pid) ∧
    (∀ (e : Actflow.Event) (ne : Actflow.NodeEvent), e.event = .node ne →
      (Server.translateEvent e).nid = some e.nid) ∧
    (∀ l : Actflow.Log,
      (Server.translateLog l).pid = l.pid ∧ (Server.translateLog l).nid = some l.nid) ∧
    (∀ e₁ e₂ : Actflow.Event, e₁ = e₂ →
      Server.translateEvent e₁ = Server.translateEvent e₂) ∧
    (∀ l₁ l₂ : Actflow.Log, l₁ = l₂ →
      Server.translateLog l₁ = Server.translateLog l₂) := by
  refine ⟨?_, ?_, ?_, ?_, ?_⟩
  · intro e
    obtain ⟨pid, nid, ev⟩ := e
    cases ev with
    | workflow w => cases w <;> rfl
    | node n => cases n <;> rfl
  · intro e ne h
    obtain ⟨pid, nid, ev⟩ := e
    have h' : ev = .node ne := h
    subst h'
    cases ne <;> rfl
  · intro l
    exact ⟨rfl, rfl⟩
  · intro e₁ e₂ h
    rw [h]
  · intro l₁ l₂ h
    rw [h]

/-- Witness for C8 at concrete inputs: a NodeRetry event carries its node
id, and translation of equal concrete inputs agrees. -/
theorem translation_total_and_deterministic_witness :
    (Server.translateEvent ⟨"p", "n1", .node .retry⟩).nid = some "n1" ∧
    Server.translateEvent ⟨"p", "", .workflow .succeeded⟩ =
      Server.translateEvent ⟨"p", "", .workflow .succeeded⟩ ∧
    Server.translateLog ⟨"p", "n1", "m", 3⟩ = Server.translateLog ⟨"p", "n1", "m", 3⟩ :=
  ⟨translation_total_and_deterministic.2.1 ⟨"p", "n1", .node .retry⟩ .retry rfl,
   translation_total_and_deterministic.2.2.2.1 _ _ rfl,
   translation_total_and_deterministic.2.2.2.2 _ _ rfl⟩

/-- C10: the node-level Paused translation discards the engine's pause
payload and emits an empty `reason`, whatever that payload was, while
the workflow-level Paused translation relays the engine's reason. -/
theorem node_paused_reason_is_empty :
    ∀ pid nid payload reason : String,
      Server.translateEvent ⟨pid, nid, .node (.paused payload)⟩ =
        .nodePaused pid nid "" ∧
      Server.translateEvent ⟨pid, nid, .workflow (.paused ⟨reason⟩)⟩ =
        .workflowPause pid reason := by
  intro pid nid payload reason
  exact ⟨rfl, rfl⟩

/-- C9: whenever `run_workflow` succeeds, the outbound queue it created
between the engine callbacks and the response stream is bounded with
capacity exactly 100. -/
theorem run_workflow_channel_capacity
    (parse : Server.Payload → Except String Server.WorkflowModel)
    (build : Server.WorkflowModel → Except String Server.Process)
    (request : Server.RunWorkflowRequest)
    (r : Server.RunWorkflowOk) (ops : List Server.EngineOp)
    (h : Server.run_workflow parse build request = (.ok r, ops)) :
    r.channelCapacity = 100 := by
  unfold Server.run_workflow at h
  split at h
  · simp at h
  · split at h
    · simp at h
    · split at h
      · simp at h
      · simp only [Prod.mk.injEq, Except.ok.injEq] at h
        obtain ⟨h1, -⟩ := h
        subst h1
        rfl

/-- Witness for C9 on a concrete successful call. -/
theorem run_workflow_channel_capacity_witness :
    ({ channelCapacity := 100, pid := "pid-1" } : Server.RunWorkflowOk).channelCapacity
      = 100 :=
  run_workflow_channel_capacity parseOk buildOk ⟨some ⟨"m"⟩⟩
    { channelCapacity := 100, pid := "pid-1" }
    [.buildWorkflowProcess ⟨"m"⟩, .registerEventCallback "pid-1",
     .registerLogCallback "pid-1", .startProcess "pid-1"] rfl

/-- C5: a `RunWorkflow` request whose definition payload is missing or
fails to deserialize is answered with an invalid-argument status, and
the engine-operation trace is empty — no build, callback registration,
or start happens. -/
theorem run_workflow_invalid_input_rejected :
    ∀ (parse : Server.Payload → Except String Server.WorkflowModel)
      (build : Server.WorkflowModel → Except String Server.Process)
      (request : Server.RunWorkflowRequest),
      (request.workflow_model = none ∨
        ∃ payload err, request.workflow_model = some payload ∧
          parse payload = .error err) →
      (∃ msg, (Server.run_workflow parse build request).1 =
        .error (.invalidArgument msg)) ∧
      (Server.run_workflow parse build request).2 = [] := by
  intro parse build request h
  rcases h with hnone | ⟨payload, err, hsome, herr⟩
  · refine ⟨⟨"Missing workflow model", ?_⟩, ?_⟩
    · simp [Server.run_workflow, hnone]
    · simp [Server.run_workflow, hnone]
  · refine ⟨⟨"Invalid workflow model: " ++ err, ?_⟩, ?_⟩
    · simp [Server.run_workflow, hsome, herr]
    · simp [Server.run_workflow, hsome, herr]

/-- Witness for C5: a request with a missing payload, and one whose
payload fails deserialization, are both rejected with no engine trace. -/
theorem run_workflow_invalid_input_rejected_witness :
    ((∃ msg, (Server.run_workflow parseOk buildOk ⟨none⟩).1 =
        .error (.invalidArgument msg)) ∧
      (Server.run_workflow parseOk buildOk ⟨none⟩).2 = []) ∧
    ((∃ msg, (Server.run_workflow parseBad buildOk ⟨some ⟨"junk"⟩⟩).1 =
        .error (.invalidArgument msg)) ∧
      (Server.run_workflow parseBad buildOk ⟨some ⟨"junk"⟩⟩).2 = []) :=
  ⟨run_workflow_invalid_input_rejected parseOk buildOk ⟨none⟩ (Or.inl rfl),
   run_workflow_invalid_input_rejected parseBad buildOk ⟨some ⟨"junk"⟩⟩
     (Or.inr ⟨⟨"junk"⟩, "missing field nodes", rfl, rfl⟩)⟩

/-- C6: `stop_workflow` always returns a normal response value — success
with an empty message when the engine's stop succeeds, failure with the
engine's error text when it fails — and never a protocol-level error. -/
theorem stop_workflow_always_normal_response :
    ∀ (stop : String → Except String Unit) (request : Server.StopWorkflowRequest),
      (∃ resp, (Server.stop_workflow stop request).1 = .ok resp) ∧
      (stop request.process_id = .ok () →
        (Server.stop_workflow stop request).1 =
          .ok { success := true, error_message := "" }) ∧
      (∀ err, stop request.process_id = .error err →
        (Server.stop_workflow stop request).1 =
          .ok { success := false, error_message := err }) := by
  intro stop request
  refine ⟨?_, ?_, ?_⟩
  · cases h : stop request.process_id with
    | ok u =>
      exact ⟨{ success := true, error_message := "" },
        by simp [Server.stop_workflow, h]⟩
    | error e =>
      exact ⟨{ success := false, error_message := e },
        by simp [Server.stop_workflow, h]⟩
  · intro h
    simp [Server.stop_workflow, h]
  · intro err h
    simp [Server.stop_workflow, h]

/-- Witness for C6 at a concrete process id for both engine outcomes. -/
theorem stop_workflow_always_normal_response_witness :
    (Server.stop_workflow stopAlwaysOk ⟨"p1"⟩).1 =
      .ok { success := true, error_message := "" } ∧
    (Server.stop_workflow stopAlwaysErr ⟨"p1"⟩).1 =
      .ok { success := false, error_message := "process not found" } :=
  ⟨(stop_workflow_always_normal_response stopAlwaysOk ⟨"p1"⟩).2.1 rfl,
   (stop_workflow_always_normal_response stopAlwaysErr ⟨"p1"⟩).2.2
     "process not found" rfl⟩

/-- Counterexample to C7: a `StopWorkflow` request carrying the malformed
process id "" is not rejected at the facade — the engine's stop is
invoked with it, and the outcome is a normal failure response, not an
invalid-argument protocol error. -/
theorem stop_workflow_malformed_pid_reaches_engine :
    (Server.stop_workflow stopAlwaysErr ⟨""⟩).2 = [.stop ""] ∧
    (Server.stop_workflow stopAlwaysErr ⟨""⟩).1 =
      .ok { success := false, error_message := "process not found" } ∧
    (Server.stop_workflow stopAlwaysErr ⟨""⟩).2 ≠ [] := by
  refine ⟨rfl, rfl, by decide⟩

/-- C7 amended: the facade performs no process-id format validation;
every `StopWorkflow` request — malformed id included — is relayed to the
engine's stop exactly once, and the outcome is always a normal response,
never a protocol-level invalid-argument. -/
theorem stop_workflow_relays_every_pid :
    ∀ (stop : String → Except String Unit) (request : Server.StopWorkflowRequest),
      (Server.stop_workflow stop request).2 = [.stop request.process_id] ∧
      ∃ resp, (Server.stop_workflow stop request).1 = .ok resp := by
  intro stop request
  cases h : stop request.process_id with
  | ok u =>
    exact ⟨by simp [Server.stop_workflow, h],
      { success := true, error_message := "" },
      by simp [Server.stop_workflow, h]⟩
  | error e =>
    exact ⟨by simp [Server.stop_workflow, h],
      { success := false, error_message := e },
      by simp [Server.stop_workflow, h]⟩

/-- Counterexample to C2: enqueuing a translated event into a full open
queue does not drop the item with a diagnostic — the send suspends the
producing callback (outcome blocked), no diagnostic is logged, and the
item remains pending rather than dropped. -/
theorem full_queue_send_suspends :
    (Server.handle_workflow_events fullChannel runningEvent).outcome = .blocked ∧
    (Server.handle_workflow_events fullChannel runningEvent).diagnostic = none ∧
    (Server.handle_workflow_events fullChannel runningEvent).channel.buffer =
      fullChannel.buffer := by
  refine ⟨rfl, rfl, rfl⟩

/-- C2 amended: the enqueue never propagates an error to the engine. On
a full but open queue the `send(..).await` suspends the producing
callback until capacity frees — the item is not dropped and no
diagnostic is logged. Only on a closed channel does the send fail, and
then the item is dropped and a diagnostic is logged; with spare capacity
the item is enqueued immediately. -/
theorem enqueue_policy_characterization :
    ∀ (ch : Server.Channel) (e : Actflow.Event) (l : Actflow.Log),
      (ch.closed = false → ch.capacity ≤ ch.buffer.length →
        (Server.handle_workflow_events ch e).outcome = .blocked ∧
        (Server.handle_workflow_events ch e).diagnostic = none ∧
        (Server.handle_workflow_events ch e).channel = ch ∧
        (Server.handle_workflow_logs ch l).outcome = .blocked ∧
        (Server.handle_workflow_logs ch l).diagnostic = none ∧
        (Server.handle_workflow_logs ch l).channel = ch) ∧
      (ch.closed = true →
        (Server.handle_workflow_events ch e).outcome = .errClosed ∧
        (Server.handle_workflow_events ch e).diagnostic =
          some "Failed to send workflow event" ∧
        (Server.handle_workflow_events ch e).channel = ch ∧
        (Server.handle_workflow_logs ch l).outcome = .errClosed ∧
        (Server.handle_workflow_logs ch l).diagnostic =
          some "Failed to send workflow log event" ∧
        (Server.handle_workflow_logs ch l).channel = ch) ∧
      (ch.closed = false → ch.buffer.length < ch.capacity →
        (Server.handle_workflow_events ch e).outcome = .sent ∧
        (Server.handle_workflow_events ch e).diagnostic = none ∧
        (Server.handle_workflow_events ch e).channel.buffer =
          ch.buffer ++ [.ok (Server.translateEvent e)]) := by
  intro ch e l
  refine ⟨?_, ?_, ?_⟩
  · intro hc hfull
    simp [Server.handle_workflow_events, Server.handle_workflow_logs,
      Server.mpscSend, hc, hfull]
  · intro hc
    simp [Server.handle_workflow_events, Server.handle_workflow_logs,
      Server.mpscSend, hc]
  · intro hc hlt
    have hn : ¬ ch.capacity ≤ ch.buffer.length := by omega
    simp [Server.handle_workflow_events, Server.mpscSend, hc, hn]

/-- Witness for C2's amended claim on concrete full, closed, and empty
channels. -/
theorem enqueue_policy_characterization_witness :
    (Server.handle_workflow_events fullChannel runningEvent).outcome = .blocked ∧
    (Server.handle_workflow_events closedChannel runningEvent).outcome = .errClosed ∧
    (Server.handle_workflow_events initialChannel runningEvent).outcome = .sent :=
  ⟨((enqueue_policy_characterization fullChannel runningEvent someLog).1
      rfl (by decide)).1,
   ((enqueue_policy_characterization closedChannel runningEvent someLog).2.1 rfl).1,
   ((enqueue_policy_characterization initialChannel runningEvent someLog).2.2
      rfl (by decide)).1⟩

/-- C1, evaluated at the failing input: after the terminal
WorkflowSuccess event is delivered, a subsequent NodeRunning delivery is
still enqueued into the outbound stream, and the channel remains open —
the handlers neither stop after the terminal item nor close the channel. -/
theorem delivery_after_terminal_still_enqueued :
    Server.isTerminal (Server.translateEvent ⟨"p", "", .workflow .succeeded⟩) = true ∧
    Server.runDeliveries initialChannel
        [.event ⟨"p", "", .workflow .succeeded⟩,
         .event ⟨"p", "n1", .node (.running "")⟩] =
      { capacity := 100,
        buffer := [.ok (.workflowSuccess "p"), .ok (.nodeRunning "p" "n1")],
        closed := false } := by
  exact ⟨rfl, rfl⟩

/-- C3: the `wait()` protocol is race-free. (i) If the flag is already
true at the call, `wait()` resolves at the first check without
suspending. (ii) Otherwise the `notified()` subscription is created
before the flag is re-checked, and the re-check happens before any
suspension: a signal landing between the first check and the re-check is
seen by the re-check, and one landing after the subscription wakes the
suspended future. (iii) Along any interleaving of signal calls and
waiter steps from a fresh coordinator, once the flag is true the waiter
resolves within two further steps — no waiter blocks forever. -/
theorem wait_double_check_race_freedom :
    (∀ s : Shutdown.State, s.flag = true → Shutdown.waitStep s .start = .done) ∧
    (∀ s : Shutdown.State, s.flag = false →
      Shutdown.waitStep s .start = .checked ∧
      Shutdown.waitStep s .checked = .subscribed s.gen ∧
      (∀ s' : Shutdown.State, s'.flag = true →
        Shutdown.waitStep s' (.subscribed s.gen) = .done) ∧
      (∀ s' : Shutdown.State, s'.flag = false →
        Shutdown.waitStep s' (.subscribed s.gen) = .waiting s.gen)) ∧
    (∀ pre : List Shutdown.Step,
      (Shutdown.runExec (Shutdown.new, .start) pre).1.flag = true →
      (Shutdown.runExec (Shutdown.runExec (Shutdown.new, .start) pre)
        [.waiter, .waiter]).2 = .done) := by
  refine ⟨?_, ?_, ?_⟩
  · intro s h
    simp [Shutdown.waitStep, h]
  · intro s h
    refine ⟨by simp [Shutdown.waitStep, h], rfl, ?_, ?_⟩
    · intro s' h'
      simp [Shutdown.waitStep, h']
    · intro s' h'
      simp [Shutdown.waitStep, h']
  · intro pre hflag
    have hinv := waitInv_runExec pre Shutdown.new .start trivial
    exact wait_resolves_in_two _ _ hinv hflag

/-- Witness for C3: an already-signaled coordinator resolves at once,
and after a signal interleaved before the waiter starts, two waiter
steps resolve it. -/
theorem wait_double_check_race_freedom_witness :
    Shutdown.waitStep { flag := true, gen := 5 } .start = .done ∧
    Shutdown.waitStep { flag := false, gen := 2 } .start = .checked ∧
    (Shutdown.runExec (Shutdown.runExec (Shutdown.new, .start) [.signal])
      [.waiter, .waiter]).2 = .done :=
  ⟨wait_double_check_race_freedom.1 { flag := true, gen := 5 } rfl,
   (wait_double_check_race_freedom.2.1 { flag := false, gen := 2 } rfl).1,
   wait_double_check_race_freedom.2.2 [.signal] rfl⟩

/-- C4: calling `shutdown()` N times (N at least 1) has the same
observable effect as calling it once: the flag is true, every current or
later `is_terminated()` read agrees, a fresh `wait()` resolves at its
first check, a waiter already subscribed or suspended before the calls
resolves at its next step, and the flag stays true until `reset()`
clears it. -/
theorem signal_idempotent :
    ∀ (s : Shutdown.State) (n : Nat), 1 ≤ n →
      (Shutdown.signalN n s).flag = true ∧
      Shutdown.is_terminated (Shutdown.signalN n s) =
        Shutdown.is_terminated (Shutdown.shutdown s) ∧
      (Shutdown.waitStep (Shutdown.signalN n s) .start = .done ∧
        Shutdown.waitStep (Shutdown.shutdown s) .start = .done) ∧
      (∀ g, Shutdown.waitStep (Shutdown.signalN n s) (.subscribed g) = .done ∧
        Shutdown.waitStep (Shutdown.shutdown s) (.subscribed g) = .done) ∧
      (∀ g, g ≤ s.gen →
        Shutdown.waitStep (Shutdown.signalN n s) (.waiting g) = .done ∧
        Shutdown.waitStep (Shutdown.shutdown s) (.waiting g) = .done) ∧
      (Shutdown.reset (Shutdown.signalN n s)).flag = false := by
  intro s n hn
  obtain ⟨k, rfl⟩ : ∃ k, n = k + 1 := ⟨n - 1, by omega⟩
  have hf : (Shutdown.signalN (k + 1) s).flag = true := signalN_succ_flag k s
  have hg : (Shutdown.signalN (k + 1) s).gen = s.gen + (k + 1) := signalN_gen (k + 1) s
  refine ⟨hf, ?_, ⟨?_, ?_⟩, ?_, ?_, ?_⟩
  · simp [Shutdown.is_terminated, hf, Shutdown.shutdown]
  · simp [Shutdown.waitStep, hf]
  · simp [Shutdown.waitStep, Shutdown.shutdown]
  · intro g
    exact ⟨by simp [Shutdown.waitStep, hf],
      by simp [Shutdown.waitStep, Shutdown.shutdown]⟩
  · intro g hgle
    constructor
    · have hlt : g < (Shutdown.signalN (k + 1) s).gen := by omega
      simp [Shutdown.waitStep, hlt]
    · have hlt : g < (Shutdown.shutdown s).gen := by
        show g < s.gen + 1
        omega
      simp [Shutdown.waitStep, hlt]
  · simp [Shutdown.reset]

/-- Witness for C4: three signals on a fresh coordinator behave like
one, and a waiter suspended with the initial generation snapshot
resolves. -/
theorem signal_idempotent_witness :
    (Shutdown.signalN 3 Shutdown.new).flag = true ∧
    Shutdown.waitStep (Shutdown.signalN 3 Shutdown.new) (.waiting 0) = .done ∧
    (Shutdown.reset (Shutdown.signalN 3 Shutdown.new)).flag = false :=
  ⟨(signal_idempotent Shutdown.new 3 (by decide)).1,
   ((signal_idempotent Shutdown.new 3 (by decide)).2.2.2.2.1 0 (by decide)).1,
   (signal_idempotent Shutdown.new 3 (by decide)).2.2.2.2.2⟩
